import Mathlib

/-
Verification of `src/jobs/scrapers/ncr/python_scripts/extract_tables_tabula.py`.

The script is a one-shot CLI wrapper around the external table-detection
library `tabula` and the standard `json` serializer.  We embed it shallowly:

* the external capability `tabula.read_pdf` is a parameter
  `readPdf : Mode → TabulaResult` (for a fixed validated path), where
  `TabulaResult = Except String (List DF)` — the call either raises
  (modelled as `.error msg`) or returns a list of pandas DataFrames;
* a pandas `DataFrame` is modelled as its column labels plus a row-major
  grid of cells (`DF`); `df.copy`, `df.replace({np.nan: None})` and
  `df.to_dict(orient="records")` are modelled as pure functions on `DF`;
* Python `float` cells are modelled as rationals (the script performs no
  arithmetic on them; the exact decimal rendering of a non-integral float
  is abstracted by `floatRepr`); the IEEE NaN marker `np.nan` is a
  distinguished constructor `Cell.nan`;
* `json.dumps` is modelled on exactly the value shapes the script ever
  serializes: a list of flat records (the success payload) and a two-string
  error object.  Serializing a flat record of scalar values cannot fail, so
  the model's serializer for the error object is total; the serializer for
  the success payload is a parameter `dumps` in the generalized embedding
  `extract_tables_from_pdf_gen`, because Python's `json.dumps` may raise on
  the data handed to it, and the `try` block of the source covers that call;
* the observable behaviour of a run is a `ProcResult` (stdout lines, stderr
  lines, exit code), paired with the ghost trace of detection-capability
  invocations (`List Mode`) so that "stream mode is invoked" is statable.
-/

namespace ExtractTablesTabula

/-- The detection mode of a `tabula.read_pdf` call: `lattice=True, stream=False`
or `stream=True, lattice=False`.  Both calls fix `pages="all"` and
`multiple_tables=True`, so the mode is the only varying argument. -/
inductive Mode where
  | lattice
  | stream
deriving DecidableEq, Repr

/-- A pandas cell value as produced by the detection capability:
the missing-value marker `np.nan`, Python `None`, an integer, a (finite)
float modelled as a rational, a string, or a boolean. -/
inductive Cell where
  | nan
  | pynone
  | int (i : Int)
  | float (q : Rat)
  | str (s : String)
  | bool (b : Bool)
deriving DecidableEq, Repr

/-- A pandas DataFrame: ordered column labels and a row-major grid of cells. -/
structure DF where
  cols : List String
  rows : List (List Cell)
deriving DecidableEq, Repr

/-- Outcome of one `tabula.read_pdf` call: a raised exception (message) or a
list of DataFrames. -/
abbrev TabulaResult := Except String (List DF)

/-- A scalar JSON value as `json.dumps` renders leaves; `jnan` is the
non-standard token `NaN` that Python's serializer emits for a float NaN. -/
inductive JVal where
  | null
  | jbool (b : Bool)
  | jint (i : Int)
  | jfloat (q : Rat)
  | jnan
  | jstr (s : String)
deriving DecidableEq, Repr

/-- A serialized-side record: one row keyed by column label. -/
abbrev JRecord := List (String × JVal)

/-- JSON string escaping for the characters that matter here (Python also
escapes other control characters and non-ASCII text; the strings the script
emits never contain those). -/
def escapeChar (c : Char) : String :=
  if c = '"' then "\\\""
  else if c = '\\' then "\\\\"
  else if c = '\n' then "\\n"
  else if c = '\r' then "\\r"
  else if c = '\t' then "\\t"
  else String.singleton c

/-- Render a string as a JSON string literal. -/
def quoteString (s : String) : String :=
  "\"" ++ String.join (s.toList.map escapeChar) ++ "\""

/-- Rendering of a float cell.  An integral float prints as `n.0` exactly as
Python does; the shortest-round-trip decimal rendering of a non-integral
float is abstracted (no claim depends on those bytes). -/
def floatRepr (q : Rat) : String :=
  if q.den = 1 then toString q.num ++ ".0"
  else toString q.num ++ "div" ++ toString q.den

/-- How `json.dumps` renders one scalar value. -/
def JVal.dumps : JVal → String
  | .null => "null"
  | .jbool true => "true"
  | .jbool false => "false"
  | .jint i => toString i
  | .jfloat q => floatRepr q
  | .jnan => "NaN"
  | .jstr s => quoteString s

/-- `", ".join`, matching `json.dumps`'s default item separator. -/
def joinComma : List String → String
  | [] => ""
  | [x] => x
  | x :: xs => x ++ ", " ++ joinComma xs

/-- `json.dumps` on one flat record (a Python dict of scalar values); default
separators, insertion order preserved. -/
def dumpsRecord (r : JRecord) : String :=
  "\x7b" ++ joinComma (r.map fun kv => quoteString kv.1 ++ ": " ++ JVal.dumps kv.2) ++ "\x7d"

/-- `json.dumps` on a list of flat records (the success payload shape). -/
def dumpsRecordArray (rs : List JRecord) : String :=
  "[" ++ joinComma (rs.map dumpsRecord) ++ "]"

/-- The serialized `error_message` dict
`\x7b"error": cat, "message": msg\x7d` the script prints to stderr. -/
def errPayload (cat msg : String) : String :=
  dumpsRecord [("error", .jstr cat), ("message", .jstr msg)]

/-- How `json.dumps` renders one (already normalized) cell value.  A NaN that
survives to serialization would render as the non-JSON token `NaN`. -/
def cellToJVal : Cell → JVal
  | .nan => .jnan
  | .pynone => .null
  | .int i => .jint i
  | .float q => .jfloat q
  | .str s => .jstr s
  | .bool b => .jbool b

/-- `df.copy()` — identity on the value (the copy only matters for mutation,
which the model has none of). -/
def DF.copy (df : DF) : DF := df

/-- The pointwise effect of `df.replace(\x7bnp.nan: None\x7d)` on one cell. -/
def replaceNanCell : Cell → Cell
  | .nan => .pynone
  | c => c

/-- `df.replace(\x7bnp.nan: None\x7d)` — rewrite every NaN cell to `None`. -/
def DF.replaceNanWithNone (df : DF) : DF :=
  ⟨df.cols, df.rows.map (List.map replaceNanCell)⟩

/-- `df.to_dict(orient="records")`: one record per row, keyed by column label
in column order (Python dicts preserve insertion order). -/
def DF.toRecords (df : DF) : List (List (String × Cell)) :=
  df.rows.map fun row => df.cols.zip row

/-- The `all_extracted_data` accumulation loop (source lines 20–26): start
from `[]` and, for each DataFrame in order, `extend` with the records of the
copied, NaN-normalized frame. -/
def allExtractedData (df_list : List DF) : List (List (String × Cell)) :=
  df_list.foldl (fun acc df => acc ++ (df.copy.replaceNanWithNone).toRecords) []

/-- Serialization-side view of one record: each cell rendered by `json.dumps`'s
value mapping. -/
def recordToJRecord (r : List (String × Cell)) : JRecord :=
  r.map fun kv => (kv.1, cellToJVal kv.2)

/-- `json.dumps(all_extracted_data)` in the model: serialize the flat list of
records. -/
def payloadDumps (records : List (List (String × Cell))) : String :=
  dumpsRecordArray (records.map recordToJRecord)

/-- Observable outcome of a run: the lines written to stdout, the lines
written to stderr, and the process exit code. -/
structure ProcResult where
  stdout : List String
  stderr : List String
  exitCode : Nat
deriving DecidableEq, Repr

/-- `extract_tables_from_pdf` (source lines 8–34), generalized over the
success-payload serializer (Python's `json.dumps` may raise on the data
handed to it, and the source's `try` block covers that call too).  The
`except Exception` handler prints the `error_message` dict to stderr and
exits 1; every failure point inside the `try` body maps to that one handler.
The second component is the ghost trace of `tabula.read_pdf` invocations. -/
def extract_tables_from_pdf_gen (readPdf : Mode → TabulaResult)
    (dumps : List (List (String × Cell)) → Except String String) :
    ProcResult × List Mode :=
  match readPdf .lattice with
  | .error e => (⟨[], [errPayload "PDF extraction failed" e], 1⟩, [.lattice])
  | .ok lat =>
    if lat.isEmpty then
      match readPdf .stream with
      | .error e =>
        (⟨[], [errPayload "PDF extraction failed" e], 1⟩, [.lattice, .stream])
      | .ok strm =>
        match dumps (allExtractedData strm) with
        | .ok out => (⟨[out], [], 0⟩, [.lattice, .stream])
        | .error e =>
          (⟨[], [errPayload "PDF extraction failed" e], 1⟩, [.lattice, .stream])
    else
      match dumps (allExtractedData lat) with
      | .ok out => (⟨[out], [], 0⟩, [.lattice])
      | .error e => (⟨[], [errPayload "PDF extraction failed" e], 1⟩, [.lattice])

/-- `extract_tables_from_pdf` with the standard serializer: on the value
shapes of this model (flat records of scalar cells) `json.dumps` always
succeeds. -/
def extract_tables_from_pdf (readPdf : Mode → TabulaResult) :
    ProcResult × List Mode :=
  extract_tables_from_pdf_gen readPdf (fun recs => .ok (payloadDumps recs))

/-- The usage hint printed when no path argument is supplied. -/
def usageMsg : String := "Usage: python extract_tables_tabula.py <pdf_path>"

/-- The `if __name__ == "__main__"` block (source lines 36–48): argv includes
the program name at index 0; `os.path.exists` is the parameter `path_exists`;
`tabula.read_pdf` for a given path and mode is the parameter `readPdf`.
The ghost trace component records the detection-capability invocations. -/
def mainEntry (argv : List String) (path_exists : String → Bool)
    (readPdf : String → Mode → TabulaResult) : ProcResult × List Mode :=
  if argv.length < 2 then
    (⟨[], [errPayload "No PDF path provided" usageMsg], 1⟩, [])
  else
    let pdf_file_path := argv.getD 1 ""
    if ! path_exists pdf_file_path then
      (⟨[], [errPayload "File not found" ("PDF file not found at: " ++ pdf_file_path)], 1⟩, [])
    else
      extract_tables_from_pdf (readPdf pdf_file_path)

/-- Spec-side cell mapping ("Normalization", spec section 4.1): a missing
numeric marker serializes as JSON null; every other value passes through
unchanged, with its type preserved. -/
def specCellToJVal : Cell → JVal
  | .nan => .null
  | .pynone => .null
  | .int i => .jint i
  | .float q => .jfloat q
  | .str s => .jstr s
  | .bool b => .jbool b

/-- A concrete detection oracle for counterexample/witness runs: lattice mode
finds one single-cell table. -/
def rpOneTable : Mode → TabulaResult :=
  fun _ => .ok [⟨["col"], [[Cell.int 1]]⟩]

/-- A concrete serializer that raises exactly on the success payload, as
Python's `json.dumps` does when a cell holds a value it cannot serialize;
the two-string error object always serializes. -/
def dumpsRaising : List (List (String × Cell)) → Except String String :=
  fun _ => .error "TypeError: Object of type Timestamp is not JSON serializable"

/-- A concrete detection oracle whose lattice attempt finds no table and
whose stream attempt raises. -/
def rpStreamErr : Mode → TabulaResult
  | .lattice => .ok []
  | .stream => .error "java.io.IOException: stream failure"

/-! ## Theorems -/

/-- C7: invoked with no path argument (fewer than two argv entries), the
process fails before any extraction attempt with category
"No PDF path provided", the usage-hint detail string, exit code 1, and a
JSON object on stderr; the detection capability is never invoked. -/
theorem c7_no_argument (argv : List String) (path_exists : String → Bool)
    (readPdf : String → Mode → TabulaResult) (h : argv.length < 2) :
    mainEntry argv path_exists readPdf =
      (⟨[], [errPayload "No PDF path provided" usageMsg], 1⟩, []) := by
  simp [mainEntry, h]

/-- Witness for C7 at the concrete bare invocation `python
extract_tables_tabula.py`. -/
theorem c7_no_argument_witness :
    mainEntry ["extract_tables_tabula.py"] (fun _ => true) (fun _ => rpOneTable) =
      (⟨[], [errPayload "No PDF path provided" usageMsg], 1⟩, []) :=
  c7_no_argument ["extract_tables_tabula.py"] (fun _ => true) (fun _ => rpOneTable)
    (by decide)

/-- C4: for a supplied path that does not exist on the filesystem, the
process fails before any extraction attempt (the detection trace is empty)
with category "File not found", a detail message containing the rejected
path, and exit code 1. -/
theorem c4_file_not_found (a0 p : String) (rest : List String)
    (path_exists : String → Bool) (readPdf : String → Mode → TabulaResult)
    (h : path_exists p = false) :
    mainEntry (a0 :: p :: rest) path_exists readPdf =
      (⟨[], [errPayload "File not found" ("PDF file not found at: " ++ p)], 1⟩, []) := by
  simp [mainEntry, h]

/-- Witness for C4 at the concrete path `/tmp/does-not-exist.pdf` on a
filesystem with no files. -/
theorem c4_file_not_found_witness :
    mainEntry ["extract_tables_tabula.py", "/tmp/does-not-exist.pdf"]
        (fun _ => false) (fun _ => rpOneTable) =
      (⟨[], [errPayload "File not found"
        ("PDF file not found at: " ++ "/tmp/does-not-exist.pdf")], 1⟩, []) :=
  c4_file_not_found "extract_tables_tabula.py" "/tmp/does-not-exist.pdf" []
    (fun _ => false) (fun _ => rpOneTable) rfl

/-- C5: when both detection attempts return zero tables without raising, the
run is a success: stdout is exactly the single line `[]`, stderr is empty,
the exit code is 0, and both modes were attempted in order. An empty result
is not routed through the error taxonomy. -/
theorem c5_empty_is_success (a0 p : String) (rest : List String)
    (path_exists : String → Bool) (readPdf : String → Mode → TabulaResult)
    (hex : path_exists p = true)
    (hlat : readPdf p .lattice = .ok [])
    (hstr : readPdf p .stream = .ok []) :
    mainEntry (a0 :: p :: rest) path_exists readPdf =
      (⟨["[]"], [], 0⟩, [.lattice, .stream]) := by
  simp [mainEntry, hex, extract_tables_from_pdf, extract_tables_from_pdf_gen,
    hlat, hstr, allExtractedData, payloadDumps, dumpsRecordArray, joinComma]

/-- Witness for C5: a concrete run on a PDF in which neither mode finds any
table. -/
theorem c5_empty_is_success_witness :
    mainEntry ["extract_tables_tabula.py", "/tmp/empty.pdf"]
        (fun _ => true) (fun _ _ => .ok []) =
      (⟨["[]"], [], 0⟩, [.lattice, .stream]) :=
  c5_empty_is_success "extract_tables_tabula.py" "/tmp/empty.pdf" []
    (fun _ => true) (fun _ _ => .ok []) rfl rfl rfl

/-- C10: with two or more positional arguments, only the first argument is
used as the PDF path; every additional argument is ignored, the run being
observationally identical (stdout, stderr, exit code, detection calls) to
the two-entry invocation. -/
theorem c10_extra_args_ignored (a0 a1 : String) (rest : List String)
    (path_exists : String → Bool) (readPdf : String → Mode → TabulaResult) :
    mainEntry (a0 :: a1 :: rest) path_exists readPdf =
      mainEntry [a0, a1] path_exists readPdf := by
  simp [mainEntry]

/-- C9: the run is deterministic: two invocations on the same argv, against a
filesystem and a detection capability that answer identically (the same
unmodified file yielding the same tables), produce identical results — in
particular byte-identical stdout. -/
theorem c9_deterministic (argv : List String)
    (ex ex' : String → Bool) (rp rp' : String → Mode → TabulaResult)
    (hex : ∀ p, ex p = ex' p) (hrp : ∀ p m, rp p m = rp' p m) :
    mainEntry argv ex rp = mainEntry argv ex' rp' := by
  have h1 : ex = ex' := funext hex
  have h2 : rp = rp' := funext fun p => funext fun m => hrp p m
  rw [h1, h2]

/-- Witness for C9 at a concrete invocation. -/
theorem c9_deterministic_witness :
    mainEntry ["extract_tables_tabula.py", "/tmp/a.pdf"]
        (fun _ => true) (fun _ => rpOneTable) =
      mainEntry ["extract_tables_tabula.py", "/tmp/a.pdf"]
        (fun _ => true) (fun _ => rpOneTable) :=
  c9_deterministic ["extract_tables_tabula.py", "/tmp/a.pdf"]
    (fun _ => true) (fun _ => true) (fun _ => rpOneTable) (fun _ => rpOneTable)
    (fun _ => rfl) (fun _ _ => rfl)

/-- C2: stream mode is invoked iff the lattice attempt returned an empty
list of tables; a nonempty lattice result is used alone (stream never
invoked), and when lattice is empty the stream result alone determines the
output — the two modes are never merged. -/
theorem c2_mode_fallback (rp : Mode → TabulaResult) (l : List DF)
    (h : rp .lattice = .ok l) :
    (Mode.stream ∈ (extract_tables_from_pdf rp).2 ↔ l = []) ∧
    (l ≠ [] → extract_tables_from_pdf rp =
      (⟨[payloadDumps (allExtractedData l)], [], 0⟩, [.lattice])) ∧
    (l = [] → ∀ s, rp .stream = .ok s →
      extract_tables_from_pdf rp =
        (⟨[payloadDumps (allExtractedData s)], [], 0⟩, [.lattice, .stream])) := by
  cases l with
  | nil =>
    refine ⟨?_, fun hne => absurd rfl hne, fun _ s hs => ?_⟩
    · simp only [extract_tables_from_pdf, extract_tables_from_pdf_gen, h]
      cases hs : rp .stream <;> simp
    · simp [extract_tables_from_pdf, extract_tables_from_pdf_gen, h, hs]
  | cons d ds =>
    refine ⟨?_, fun _ => ?_, fun hc => absurd hc (by simp)⟩
    · simp [extract_tables_from_pdf, extract_tables_from_pdf_gen, h]
    · simp [extract_tables_from_pdf, extract_tables_from_pdf_gen, h]

/-- Witness for C2: with a lattice attempt that finds one table, the run
uses that table alone and never invokes stream mode. -/
theorem c2_mode_fallback_witness :
    extract_tables_from_pdf rpOneTable =
      (⟨[payloadDumps (allExtractedData [⟨["col"], [[Cell.int 1]]⟩])], [], 0⟩,
        [.lattice]) :=
  (c2_mode_fallback rpOneTable [⟨["col"], [[Cell.int 1]]⟩] rfl).2.1 (by simp)

/-- Helper: the one-shot extraction body always ends in exactly one of the
two payload shapes. -/
lemma extract_shape (rp : Mode → TabulaResult) :
    (∃ recs, (extract_tables_from_pdf rp).1 = ⟨[payloadDumps recs], [], 0⟩) ∨
    (∃ e, (extract_tables_from_pdf rp).1 =
      ⟨[], [errPayload "PDF extraction failed" e], 1⟩) := by
  unfold extract_tables_from_pdf extract_tables_from_pdf_gen
  cases hl : rp .lattice with
  | error e => exact Or.inr ⟨e, by simp⟩
  | ok lat =>
    by_cases he : lat.isEmpty
    · cases hs : rp .stream with
      | error e => exact Or.inr ⟨e, by simp [he, hs]⟩
      | ok s => exact Or.inl ⟨allExtractedData s, by simp [he, hs]⟩
    · exact Or.inl ⟨allExtractedData lat, by simp [he]⟩

/-- C1: every invocation ends in exactly one of the two payloads: success is
exit code 0 with a single serialized record array on stdout and an empty
stderr; failure is exit code 1 with an empty stdout (no partial results) and
a single serialized two-field error object on stderr.  The two outcomes are
mutually exclusive (the exit codes differ and each pins both channels). -/
theorem c1_exactly_one_payload (argv : List String) (path_exists : String → Bool)
    (rp : String → Mode → TabulaResult) :
    ((mainEntry argv path_exists rp).1.exitCode = 0 ∧
     (mainEntry argv path_exists rp).1.stderr = [] ∧
     (∃ recs, (mainEntry argv path_exists rp).1.stdout = [payloadDumps recs])) ∨
    ((mainEntry argv path_exists rp).1.exitCode = 1 ∧
     (mainEntry argv path_exists rp).1.stdout = [] ∧
     (∃ c m, (mainEntry argv path_exists rp).1.stderr = [errPayload c m])) := by
  match argv with
  | [] => exact Or.inr ⟨by simp [mainEntry], by simp [mainEntry],
      "No PDF path provided", usageMsg, by simp [mainEntry]⟩
  | [a0] => exact Or.inr ⟨by simp [mainEntry], by simp [mainEntry],
      "No PDF path provided", usageMsg, by simp [mainEntry]⟩
  | a0 :: a1 :: rest =>
    by_cases h2 : path_exists a1
    · have hmain : mainEntry (a0 :: a1 :: rest) path_exists rp =
          extract_tables_from_pdf (rp a1) := by
        simp [mainEntry, h2]
      rcases extract_shape (rp a1) with ⟨recs, hr⟩ | ⟨e, hr⟩
      · exact Or.inl ⟨by rw [hmain, hr], by rw [hmain, hr], recs, by rw [hmain, hr]⟩
      · exact Or.inr ⟨by rw [hmain, hr], by rw [hmain, hr],
          "PDF extraction failed", e, by rw [hmain, hr]⟩
    · have hmain2 : mainEntry (a0 :: a1 :: rest) path_exists rp =
          (⟨[], [errPayload "File not found" ("PDF file not found at: " ++ a1)], 1⟩,
            []) := by
        simp only [mainEntry, List.length_cons]
        rw [if_neg (by omega)]
        simp [h2]
      exact Or.inr ⟨by rw [hmain2], by rw [hmain2],
        "File not found", "PDF file not found at: " ++ a1, by rw [hmain2]⟩

/-- Helper: the fold that accumulates per-table records is the flat
concatenation of the per-table record lists, in order. -/
lemma foldl_append_eq_join {α β : Type} (f : α → List β) :
    ∀ (l : List α) (acc : List β),
      l.foldl (fun a x => a ++ f x) acc = acc ++ (l.map f).flatten
  | [], acc => by simp
  | x :: xs, acc => by
    simp only [List.foldl_cons, List.map_cons, List.flatten_cons,
      foldl_append_eq_join f xs, List.append_assoc]

/-- Helper: the records of a NaN-normalized DataFrame are its rows zipped
with the column labels, each cell rewritten by `replaceNanCell`. -/
lemma toRecords_replace (df : DF) :
    (df.copy.replaceNanWithNone).toRecords =
      df.rows.map fun row =>
        (df.cols.zip row).map fun kv => (kv.1, replaceNanCell kv.2) := by
  unfold DF.copy DF.replaceNanWithNone DF.toRecords
  simp only [List.map_map]
  refine List.map_congr_left fun row _ => ?_
  rw [Function.comp_apply, List.zip_map_right]
  refine List.map_congr_left fun kv _ => ?_
  rfl

/-- C8: the emitted result is the ordered concatenation of the row records
of all detected tables, flattened into one single-level sequence in
discovery order: one record per row, keyed by column label, with no table
boundaries preserved. -/
theorem c8_flat_concatenation (df_list : List DF) :
    allExtractedData df_list =
      (df_list.map fun df =>
        df.rows.map fun row =>
          (df.cols.zip row).map fun kv => (kv.1, replaceNanCell kv.2)).flatten := by
  unfold allExtractedData
  rw [foldl_append_eq_join]
  simp only [List.nil_append]
  congr 1
  exact List.map_congr_left fun df _ => toRecords_replace df

/-- C6: the serialized form of every processed table maps each original cell
by the spec-side mapping: a NaN cell becomes JSON null (its key still
present in its record), and every other cell passes through with its type
preserved — an int stays a JSON int, a float stays a JSON number, a string
stays a JSON string, a boolean stays a JSON boolean.  In particular the
non-JSON token `NaN` (`JVal.jnan`) never appears. -/
theorem c6_nan_to_null (df : DF) :
    ((df.copy.replaceNanWithNone).toRecords).map recordToJRecord =
      df.rows.map fun row =>
        (df.cols.zip row).map fun kv => (kv.1, specCellToJVal kv.2) := by
  have hcell : ∀ kv : String × Cell,
      (kv.1, cellToJVal (replaceNanCell kv.2)) = (kv.1, specCellToJVal kv.2) := by
    rintro ⟨k, c⟩
    cases c <;> rfl
  rw [toRecords_replace]
  simp only [List.map_map]
  refine List.map_congr_left fun row _ => ?_
  simp only [Function.comp_apply, recordToJRecord, List.map_map]
  refine List.map_congr_left fun kv _ => ?_
  exact hcell kv

/-- C3 counterexample: the source's `try` block (lines 13–28) also covers
`json.dumps(all_extracted_data)` and `print`.  With a lattice attempt that
succeeds with one table and a serializer that raises on the success payload
(as Python's `json.dumps` does on a non-serializable cell), the
serialization error is reported under category "PDF extraction failed" —
it does not propagate distinctly, refuting the claim that the catch-all
scope covers exactly the two detection-capability invocations. -/
theorem c3_counterexample :
    (extract_tables_from_pdf_gen rpOneTable dumpsRaising).1 =
      ⟨[], [errPayload "PDF extraction failed"
        "TypeError: Object of type Timestamp is not JSON serializable"], 1⟩ := by
  rfl

/-- C3 amended: the catch-all scope covers the entire `try` body — both
detection-capability invocations, the normalization loop, and the JSON
serialization of the success payload — and any error raised anywhere inside
it is translated into the single category "PDF extraction failed" with the
underlying error's description, written to stderr, exit code 1. -/
theorem c3_amended_catch_scope (rp : Mode → TabulaResult)
    (dumps : List (List (String × Cell)) → Except String String) :
    (∀ e, rp .lattice = .error e →
      (extract_tables_from_pdf_gen rp dumps).1 =
        ⟨[], [errPayload "PDF extraction failed" e], 1⟩) ∧
    (∀ l e, rp .lattice = .ok l → l ≠ [] →
      dumps (allExtractedData l) = .error e →
      (extract_tables_from_pdf_gen rp dumps).1 =
        ⟨[], [errPayload "PDF extraction failed" e], 1⟩) ∧
    (∀ e, rp .lattice = .ok [] → rp .stream = .error e →
      (extract_tables_from_pdf_gen rp dumps).1 =
        ⟨[], [errPayload "PDF extraction failed" e], 1⟩) ∧
    (∀ s e, rp .lattice = .ok [] → rp .stream = .ok s →
      dumps (allExtractedData s) = .error e →
      (extract_tables_from_pdf_gen rp dumps).1 =
        ⟨[], [errPayload "PDF extraction failed" e], 1⟩) := by
  refine ⟨fun e he => ?_, fun l e hl hne hd => ?_, fun e hl hs => ?_,
    fun s e hl hs hd => ?_⟩
  · simp [extract_tables_from_pdf_gen, he]
  · have hne' : l.isEmpty = false := by
      cases l with
      | nil => exact absurd rfl hne
      | cons d ds => rfl
    simp [extract_tables_from_pdf_gen, hl, hne', hd]
  · simp [extract_tables_from_pdf_gen, hl, hs]
  · simp [extract_tables_from_pdf_gen, hl, hs, hd]

/-- Witness for the amended C3: a run whose lattice attempt is empty and
whose stream attempt raises is reported under "PDF extraction failed". -/
theorem c3_amended_catch_scope_witness :
    (extract_tables_from_pdf_gen rpStreamErr dumpsRaising).1 =
      ⟨[], [errPayload "PDF extraction failed"
        "java.io.IOException: stream failure"], 1⟩ :=
  (c3_amended_catch_scope rpStreamErr dumpsRaising).2.2.1
    "java.io.IOException: stream failure" rfl rfl

end ExtractTablesTabula
